import Mathlib

/-!
Verification of the ISS tracker (iss_tkintermapview.py) against its
specification.  The tracker polls a web API for the space station's
position on a worker thread, stores the sample in the object's shared
attributes, and updates a Tkinter map UI.  Coordinates are modelled as
exact rationals: the program only stores and copies the parsed float
values, it never computes with them.
-/

namespace ISSTracker

/-- One JSON field of the API response as seen by float(position.get(key)):
absent (dict.get returns None and float(None) raises TypeError), present
but non-numeric (float raises ValueError), or a numeric value. -/
inductive JsonField where
  | missing
  | malformed
  | num (q : Rat)
  deriving DecidableEq

/-- Python exceptions that get_iss_position can raise: requests.get
connection failure, raise_for_status on a 4xx or 5xx status, response.json
decode failure, float(None), float(non-numeric string). -/
inductive FetchError where
  | networkError
  | httpStatusError
  | jsonDecodeError
  | typeError
  | valueError
  deriving DecidableEq

/-- Applying float(...) to a fetched JSON field. -/
def parseFloat : JsonField → Except FetchError Rat
  | .missing => .error .typeError
  | .malformed => .error .valueError
  | .num q => .ok q

/-- Outcome of one requests.get call: the request itself raises, or an HTTP
response arrives with a status code and a body that either fails JSON
decoding (none) or yields a latitude field and a longitude field. -/
inductive FetchOutcome where
  | netError
  | response (status : Nat) (body : Option (JsonField × JsonField))
  deriving DecidableEq

/-- The map marker entity, reduced to the position it was given. -/
structure Marker where
  lat : Rat
  lon : Rat
  deriving DecidableEq

/-- The mutable attributes of the ISSTracker object that the claims talk
about.  rootDestroyed records whether root.destroy() has already run. -/
structure TrackerState where
  latitude : Rat
  longitude : Rat
  update_interval : Nat
  running : Bool
  update_thread : Bool
  count : Nat
  marker : Option Marker
  rootDestroyed : Bool
  deriving DecidableEq

/-- Embeds ISSTracker.get_iss_position (lines 103-116).  Python mutation
semantics: the result is the state after the method ran together with the
exception it raised, if any; attribute assignments performed before a
raise persist, which is why a longitude parse failure leaves the freshly
assigned latitude in place. -/
def get_iss_position (st : TrackerState) (out : FetchOutcome) :
    TrackerState × Option FetchError :=
  match out with
  | .netError => (st, some .networkError)
  | .response status body =>
    if 400 ≤ status ∧ status < 600 then
      (st, some .httpStatusError)
    else
      match body with
      | none => (st, some .jsonDecodeError)
      | some (latField, lonField) =>
        match parseFloat latField with
        | .error e => (st, some e)
        | .ok lat =>
          match parseFloat lonField with
          | .error e => ({ st with latitude := lat }, some e)
          | .ok lon => ({ st with latitude := lat, longitude := lon }, none)

/-- Whether one fetch outcome makes get_iss_position return without
raising; this depends only on the outcome, not on the state. -/
def fetchSucceeds (out : FetchOutcome) : Bool :=
  match out with
  | .netError => false
  | .response status body =>
    if 400 ≤ status ∧ status < 600 then false
    else
      match body with
      | none => false
      | some (latField, lonField) =>
        match parseFloat latField, parseFloat lonField with
        | .ok _, .ok _ => true
        | _, _ => false

/-- Whether the fetch fails before the line self.latitude = float(...)
executes: request error, error status, JSON decode error, or a missing or
malformed latitude field. -/
def failsBeforeLatitude (out : FetchOutcome) : Bool :=
  match out with
  | .netError => true
  | .response status body =>
    if 400 ≤ status ∧ status < 600 then true
    else
      match body with
      | none => true
      | some (latField, _) =>
        match parseFloat latField with
        | .error _ => true
        | .ok _ => false

/-- A call into the Tkinter UI objects, tagged with its target. -/
inductive UiCall where
  | configureCountLabel (n : Nat)
  | configureLatitudeLabel (q : Rat)
  | configureLongitudeLabel (q : Rat)
  | afterUpdateMarkerPosition
  deriving DecidableEq

/-- Effects of one pass through the while-loop body of
ISSTracker.update_iss_position_thread (lines 121-140): the state after the
pass, whether sleep(self.update_interval) was reached, the UI calls the
worker thread made directly, and the callbacks it enqueued on the UI
thread's event queue via root.after. -/
structure IterEffects where
  state : TrackerState
  slept : Bool
  workerDirectUiCalls : List UiCall
  queuedToUiThread : List UiCall
  deriving DecidableEq

/-- Embeds one iteration of the try/except body of
ISSTracker.update_iss_position_thread (lines 122-140).  On a raise inside
get_iss_position the except clause prints and the iteration ends: the
count increment, the three label configure calls, the root.after enqueue
and the sleep are all skipped.  On success the worker increments count,
configures the three labels directly, enqueues update_marker_position via
root.after(0, ...), then sleeps. -/
def update_iss_position_body (st : TrackerState) (out : FetchOutcome) :
    IterEffects :=
  match get_iss_position st out with
  | (st1, some _) =>
    { state := st1
      slept := false
      workerDirectUiCalls := []
      queuedToUiThread := [] }
  | (st1, none) =>
    let st2 := { st1 with count := st1.count + 1 }
    { state := st2
      slept := true
      workerDirectUiCalls :=
        [ .configureCountLabel st2.count
        , .configureLatitudeLabel st2.latitude
        , .configureLongitudeLabel st2.longitude ]
      queuedToUiThread := [.afterUpdateMarkerPosition] }

/-- Embeds the while self.running loop of
ISSTracker.update_iss_position_thread driven by a finite schedule of fetch
outcomes supplied by the network environment.  Returns the final state and
the number of loop iterations that actually executed. -/
def update_iss_position_thread (st : TrackerState)
    (outs : List FetchOutcome) : TrackerState × Nat :=
  match outs with
  | [] => (st, 0)
  | out :: rest =>
    if st.running then
      let r := update_iss_position_thread (update_iss_position_body st out).state rest
      (r.1, r.2 + 1)
    else
      (st, 0)

/-- Embeds ISSTracker.update_marker_position (lines 143-156), the callback
that root.after schedules on the UI thread.  Both branches place the
marker at the currently stored latitude and longitude; they differ in the
source only in marker colors. -/
def update_marker_position (st : TrackerState) : TrackerState :=
  match st.marker with
  | some _ => { st with marker := some { lat := st.latitude, lon := st.longitude } }
  | none => { st with marker := some { lat := st.latitude, lon := st.longitude } }

/-- Embeds ISSTracker.initialize_marker (lines 78-100).  The external
map.set_marker call is modelled as succeeding, so the except fallback to
(0, 0), which only fires when set_marker itself raises, is not taken. -/
def initialize_marker (st : TrackerState) : TrackerState :=
  { st with marker := some { lat := st.latitude, lon := st.longitude } }

/-- The attribute values ISSTracker.__init__ (lines 62-68) sets before the
startup fetch: update_interval, running=False, update_thread=None,
count=0, marker=None.  Window size, theme and icons are external UI
configuration and are omitted.  The latitude and longitude placeholders
stand for attributes that do not exist yet in the source; on a failed
startup fetch the whole state is discarded by the propagating exception
and on success both fields are overwritten before anything reads them. -/
def preInitState (update_interval : Nat) : TrackerState :=
  { latitude := 0
    longitude := 0
    update_interval := update_interval
    running := false
    update_thread := false
    count := 0
    marker := none
    rootDestroyed := false }

/-- Embeds the remainder of ISSTracker.__init__ from the startup fetch on:
self.get_iss_position() runs with no try/except, so a raise there
propagates out of the constructor; create_widgets and initialize_marker
run only on success. -/
def init (update_interval : Nat) (firstFetch : FetchOutcome) :
    Except FetchError TrackerState :=
  match get_iss_position (preInitState update_interval) firstFetch with
  | (_, some e) => .error e
  | (st, none) => .ok (initialize_marker st)

/-- Embeds ISSTracker.run (lines 176-190): sets running to True and starts
the daemon update thread before entering the UI main loop. -/
def run (st : TrackerState) : TrackerState :=
  { st with running := true, update_thread := true }

/-- The exception Tcl/Tk raises when a command is invoked after the
application has been destroyed. -/
inductive TclError where
  | appDestroyed
  deriving DecidableEq

/-- Models the external self.root.destroy() call with Tkinter semantics:
destroying the root ends the Tcl application, and invoking destroy again
afterwards raises TclError because the application has been destroyed. -/
def destroyRoot (st : TrackerState) : TrackerState × Option TclError :=
  if st.rootDestroyed then
    (st, some .appDestroyed)
  else
    ({ st with rootDestroyed := true }, none)

/-- Embeds ISSTracker.quit (lines 276-279): def quit(self, *arts) sets
self.running = False and then calls self.root.destroy().  The extra
positional arguments arts are accepted in any number and never used. -/
def quit {α : Type} (st : TrackerState) (arts : List α) :
    TrackerState × Option TclError :=
  let st1 := { st with running := false }
  destroyRoot st1

/-- The pair of shared attributes self.latitude, self.longitude as a
memory cell shared between the worker thread and the UI thread. -/
structure SharedCell where
  lat : Rat
  lon : Rat
  deriving DecidableEq

/-- One atomic memory access on the shared attributes.  A write by
get_iss_position is the two separate assignments writeLat then writeLon
(lines 115-116); a snapshot by update_marker_position is the two separate
attribute reads readLat then readLon in
self.marker.set_position(self.latitude, self.longitude) (line 146). -/
inductive MemEvent where
  | writeLat (q : Rat)
  | writeLon (q : Rat)
  | readLat
  | readLon
  deriving DecidableEq

/-- Memory-model execution state: the shared cell plus what the reader has
observed so far. -/
structure MemState where
  cell : SharedCell
  obsLat : Option Rat
  obsLon : Option Rat
  deriving DecidableEq

/-- Effect of one atomic access. -/
def memStep (s : MemState) : MemEvent → MemState
  | .writeLat q => { s with cell := { s.cell with lat := q } }
  | .writeLon q => { s with cell := { s.cell with lon := q } }
  | .readLat => { s with obsLat := some s.cell.lat }
  | .readLon => { s with obsLon := some s.cell.lon }

/-- Run a schedule of atomic accesses. -/
def memRun (s : MemState) (evs : List MemEvent) : MemState :=
  evs.foldl memStep s

/-- The writer thread's program for a list of fetched positions: each
write is the two assignments of get_iss_position in program order. -/
def writeEvents : List (Rat × Rat) → List MemEvent
  | [] => []
  | (a, b) :: ws => .writeLat a :: .writeLon b :: writeEvents ws

/-- The reader's program for one snapshot: the two attribute reads of
update_marker_position in program order. -/
def snapshotEvents : List MemEvent := [.readLat, .readLon]

/-- evs is an interleaving of the two threads' programs xs and ys: it
contains exactly the events of both, each thread's events in program
order. -/
inductive Interleaving : List MemEvent → List MemEvent → List MemEvent → Prop
  | nil : Interleaving [] [] []
  | left {x : MemEvent} {xs ys zs : List MemEvent} :
      Interleaving xs ys zs → Interleaving (x :: xs) ys (x :: zs)
  | right {y : MemEvent} {xs ys zs : List MemEvent} :
      Interleaving xs ys zs → Interleaving xs (y :: ys) (y :: zs)

/-- A concrete tracker state used to instantiate theorems. -/
def sampleState : TrackerState :=
  { latitude := 10
    longitude := 20
    update_interval := 10
    running := true
    update_thread := true
    count := 5
    marker := some { lat := 10, lon := 20 }
    rootDestroyed := false }

/-- An HTTP 200 response whose body parses to latitude 7, longitude 8. -/
def okOutcome : FetchOutcome := .response 200 (some (.num 7, .num 8))

/-- An HTTP 200 response whose latitude parses to 55 but whose longitude
field is missing, so float(None) raises TypeError after self.latitude has
already been assigned. -/
def lonMissingOutcome : FetchOutcome := .response 200 (some (.num 55, .missing))

/-- Two consecutive writes as fetched by the worker thread. -/
def tornWrites : List (Rat × Rat) := [(1, 2), (3, 4)]

/-- A schedule interleaving the snapshot with the two writes: the reader
reads latitude between the writes and longitude after the second. -/
def tornSchedule : List MemEvent :=
  [.writeLat 1, .writeLon 2, .readLat, .writeLat 3, .writeLon 4, .readLon]

/-- Initial memory state with the cell at (0, 0) and nothing observed. -/
def memInit : MemState :=
  { cell := { lat := 0, lon := 0 }, obsLat := none, obsLon := none }

/-- get_iss_position touches only the latitude and longitude attributes:
every other field of the tracker state is unchanged whether or not the
fetch raises. -/
theorem get_pos_frame (st : TrackerState) (out : FetchOutcome) :
    (get_iss_position st out).1.count = st.count ∧
    (get_iss_position st out).1.running = st.running ∧
    (get_iss_position st out).1.update_interval = st.update_interval ∧
    (get_iss_position st out).1.marker = st.marker ∧
    (get_iss_position st out).1.update_thread = st.update_thread ∧
    (get_iss_position st out).1.rootDestroyed = st.rootDestroyed := by
  cases out with
  | netError => simp [get_iss_position]
  | response status body =>
    simp only [get_iss_position]
    split
    · simp
    · cases body with
      | none => simp
      | some p =>
        obtain ⟨latField, lonField⟩ := p
        cases latField <;> cases lonField <;> simp [parseFloat]

/-- get_iss_position raises an exception exactly when fetchSucceeds is
false, independently of the state it runs on. -/
theorem get_pos_err_iff (st : TrackerState) (out : FetchOutcome) :
    (get_iss_position st out).2 = none ↔ fetchSucceeds out = true := by
  cases out with
  | netError => simp [get_iss_position, fetchSucceeds]
  | response status body =>
    simp only [get_iss_position, fetchSucceeds]
    split
    · simp
    · cases body with
      | none => simp
      | some p =>
        obtain ⟨latField, lonField⟩ := p
        cases latField <;> cases lonField <;> simp [parseFloat]

/-- On success get_iss_position stores the fetched numeric fields in
latitude and longitude. -/
theorem get_pos_ok_values (st : TrackerState) (a b : Rat) (status : Nat)
    (h : ¬ (400 ≤ status ∧ status < 600)) :
    get_iss_position st (.response status (some (.num a, .num b)))
      = ({ st with latitude := a, longitude := b }, none) := by
  simp [get_iss_position, parseFloat, h]

/-- Behavior of one loop-body pass: running is preserved, count rises by
one exactly on a successful fetch, the sleep is reached exactly on a
successful fetch, and the UI calls issued are empty on failure and are the
three direct label configures plus one enqueued marker callback on
success. -/
theorem body_spec (st : TrackerState) (out : FetchOutcome) :
    (update_iss_position_body st out).state.running = st.running ∧
    (update_iss_position_body st out).state.count
      = st.count + (if fetchSucceeds out then 1 else 0) ∧
    (update_iss_position_body st out).slept = fetchSucceeds out ∧
    (fetchSucceeds out = false →
      (update_iss_position_body st out).workerDirectUiCalls = [] ∧
      (update_iss_position_body st out).queuedToUiThread = []) ∧
    (fetchSucceeds out = true →
      (update_iss_position_body st out).workerDirectUiCalls
        = [ .configureCountLabel (st.count + 1)
          , .configureLatitudeLabel (update_iss_position_body st out).state.latitude
          , .configureLongitudeLabel (update_iss_position_body st out).state.longitude ] ∧
      (update_iss_position_body st out).queuedToUiThread
        = [UiCall.afterUpdateMarkerPosition]) := by
  have hframe := get_pos_frame st out
  have hiff := get_pos_err_iff st out
  unfold update_iss_position_body
  rcases hg : get_iss_position st out with ⟨st1, err⟩
  rw [hg] at hframe hiff
  obtain ⟨hc, hr, -⟩ := hframe
  cases err with
  | some e =>
    have hc2 : st1.count = st.count := hc
    have hr2 : st1.running = st.running := hr
    have hfail : fetchSucceeds out = false := by
      cases hfs : fetchSucceeds out
      · rfl
      · exact absurd (hiff.mpr hfs) (by simp)
    exact ⟨hr2, by simp [hfail, hc2], by simp [hfail], fun _ => ⟨rfl, rfl⟩,
      fun hcon => absurd hcon (by simp [hfail])⟩
  | none =>
    have hc2 : st1.count = st.count := hc
    have hr2 : st1.running = st.running := hr
    have hok : fetchSucceeds out = true := hiff.mp rfl
    exact ⟨hr2, by simp [hok, hc2], by simp [hok],
      fun hcon => absurd hok (by simp [hcon]),
      fun _ => ⟨by simp [hc2], rfl⟩⟩

/-- Driving the loop with running set: every scheduled outcome is
processed, running stays set, and count rises by exactly the number of
successful fetches in the schedule. -/
theorem loop_spec (outs : List FetchOutcome) :
    ∀ st : TrackerState, st.running = true →
      (update_iss_position_thread st outs).2 = outs.length ∧
      (update_iss_position_thread st outs).1.running = true ∧
      (update_iss_position_thread st outs).1.count
        = st.count + List.countP fetchSucceeds outs := by
  induction outs with
  | nil => intro st h; simp [update_iss_position_thread, h]
  | cons o rest ih =>
    intro st h
    have hb := body_spec st o
    have hrun : (update_iss_position_body st o).state.running = true := by
      rw [hb.1, h]
    have := ih (update_iss_position_body st o).state hrun
    simp only [update_iss_position_thread, h, if_true]
    refine ⟨by simp [this.1], by simp [this.2.1], ?_⟩
    simp only [this.2.2, hb.2.1, List.countP_cons]
    rcases Bool.eq_false_or_eq_true (fetchSucceeds o) with hf | hf <;>
      simp [hf] <;> omega

/-- With running cleared, the loop exits at once without executing an
iteration. -/
theorem loop_stopped (st : TrackerState) (outs : List FetchOutcome)
    (h : st.running = false) :
    (update_iss_position_thread st outs).2 = 0 ∧
    (update_iss_position_thread st outs).1 = st := by
  cases outs with
  | nil => simp [update_iss_position_thread]
  | cons o rest => simp [update_iss_position_thread, h]

/-- A constructed tracker starts with count 0 and the poll loop not yet
running. -/
theorem init_ok_state (ui : Nat) (fo : FetchOutcome) (st0 : TrackerState)
    (h : init ui fo = .ok st0) :
    st0.count = 0 ∧ st0.running = false := by
  have hframe := get_pos_frame (preInitState ui) fo
  unfold init at h
  rcases hg : get_iss_position (preInitState ui) fo with ⟨st1, err⟩
  rw [hg] at h hframe
  obtain ⟨hc, hr, -⟩ := hframe
  cases err with
  | some e => simp at h
  | none =>
    simp only [Except.ok.injEq] at h
    subst h
    exact ⟨by simpa [initialize_marker, preInitState] using hc,
      by simpa [initialize_marker, preInitState] using hr⟩

/-- quit always leaves the running flag cleared, whatever arguments it was
invoked with and whether or not root.destroy raises. -/
theorem quit_running_false {α : Type} (st : TrackerState) (arts : List α) :
    (quit st arts).1.running = false := by
  simp only [quit, destroyRoot]
  split <;> rfl

/-- writeEvents distributes over appending write lists. -/
theorem writeEvents_append (pre post : List (Rat × Rat)) :
    writeEvents (pre ++ post) = writeEvents pre ++ writeEvents post := by
  induction pre with
  | nil => rfl
  | cons w t ih =>
    obtain ⟨a, b⟩ := w
    simp [writeEvents, ih]

/-- Any program interleaves with the finished empty program. -/
theorem interleaving_nil_right (xs : List MemEvent) : Interleaving xs [] xs := by
  induction xs with
  | nil => exact .nil
  | cons x t ih => exact .left ih

/-- Prepending a block of first-thread events to an interleaving. -/
theorem interleaving_append_left (ws : List MemEvent) {xs ys zs : List MemEvent}
    (h : Interleaving xs ys zs) : Interleaving (ws ++ xs) ys (ws ++ zs) := by
  induction ws with
  | nil => exact h
  | cons w t ih => exact .left ih

/-- Splitting a run at a concatenation point. -/
theorem memRun_append (s : MemState) (l1 l2 : List MemEvent) :
    memRun s (l1 ++ l2) = memRun (memRun s l1) l2 :=
  List.foldl_append memStep s l1 l2

/-- Writer events never change what the reader has observed. -/
theorem memRun_writes_obs (ws : List (Rat × Rat)) :
    ∀ s : MemState, (memRun s (writeEvents ws)).obsLat = s.obsLat ∧
      (memRun s (writeEvents ws)).obsLon = s.obsLon := by
  induction ws with
  | nil => intro s; exact ⟨rfl, rfl⟩
  | cons w t ih =>
    intro s
    obtain ⟨a, b⟩ := w
    have := ih { s with cell := { lat := a, lon := b } }
    simpa [writeEvents, memRun, memStep] using this

/-- After a block of complete writes the cell holds the last written pair,
or its initial content when no write happened. -/
theorem memRun_writes_cell (ws : List (Rat × Rat)) :
    ∀ s : MemState,
      (memRun s (writeEvents ws)).cell
        = { lat := (ws.getLastD (s.cell.lat, s.cell.lon)).1,
            lon := (ws.getLastD (s.cell.lat, s.cell.lon)).2 } := by
  induction ws with
  | nil => intro s; rfl
  | cons w t ih =>
    intro s
    obtain ⟨a, b⟩ := w
    rw [List.getLastD_cons]
    have := ih { s with cell := { lat := a, lon := b } }
    simpa [writeEvents, memRun, memStep] using this

/-- Running the snapshot program records both current cell fields. -/
theorem memRun_snapshot (s : MemState) :
    memRun s snapshotEvents
      = { cell := s.cell, obsLat := some s.cell.lat, obsLon := some s.cell.lon } :=
  rfl

/-- The last element of a list under a default is a member or the default. -/
theorem getLastD_mem_or {β : Type} (l : List β) :
    ∀ d : β, l.getLastD d ∈ l ∨ l.getLastD d = d := by
  induction l with
  | nil => intro d; right; rfl
  | cons a t ih =>
    intro d
    rw [List.getLastD_cons]
    rcases ih a with h | h
    · left; exact List.mem_cons_of_mem a h
    · left; rw [h]; exact List.mem_cons_self a t

/-- Claim C1 is false on the code: get_iss_position writes self.latitude
and self.longitude in two separate assignments and update_marker_position
reads them in two separate accesses, so in the valid interleaving
tornSchedule of the writes (1,2) and (3,4) with one snapshot, the
snapshot observes latitude 1 from the first write paired with longitude 4
from the second, a pair no single write produced and distinct from the
initial (0,0). -/
theorem claim1_torn_snapshot_counterexample :
    Interleaving (writeEvents tornWrites) snapshotEvents tornSchedule ∧
    (memRun memInit tornSchedule).obsLat = some 1 ∧
    (memRun memInit tornSchedule).obsLon = some 4 ∧
    ((1 : Rat), (4 : Rat)) ∉ tornWrites ∧
    ¬ ((1 : Rat) = 0 ∧ (4 : Rat) = 0) := by
  refine ⟨?_, rfl, rfl, by decide, by decide⟩
  exact .left (.left (.right (.left (.left (.right .nil)))))

/-- Claim C1 amended: a snapshot whose two attribute reads do not
interleave with a write observes the latitude and the longitude of the
most recent complete write, or the initial cell content if no write
happened, hence a pair produced by a single write; a torn pair can arise
only when the snapshot interleaves with a write, as the counterexample
schedule shows. -/
theorem claim1_snapshot_between_writes_atomic (c0 : SharedCell)
    (pre post : List (Rat × Rat)) :
    Interleaving (writeEvents (pre ++ post)) snapshotEvents
      (writeEvents pre ++ (snapshotEvents ++ writeEvents post)) ∧
    (memRun { cell := c0, obsLat := none, obsLon := none }
        (writeEvents pre ++ (snapshotEvents ++ writeEvents post))).obsLat
      = some (pre.getLastD (c0.lat, c0.lon)).1 ∧
    (memRun { cell := c0, obsLat := none, obsLon := none }
        (writeEvents pre ++ (snapshotEvents ++ writeEvents post))).obsLon
      = some (pre.getLastD (c0.lat, c0.lon)).2 ∧
    (pre.getLastD (c0.lat, c0.lon) ∈ pre ∨
      pre.getLastD (c0.lat, c0.lon) = (c0.lat, c0.lon)) := by
  constructor
  · rw [writeEvents_append]
    exact interleaving_append_left _ (.right (.right (interleaving_nil_right _)))
  have hrw : memRun { cell := c0, obsLat := none, obsLon := none }
      (writeEvents pre ++ (snapshotEvents ++ writeEvents post))
      = memRun (memRun (memRun { cell := c0, obsLat := none, obsLon := none }
          (writeEvents pre)) snapshotEvents) (writeEvents post) := by
    rw [memRun_append, memRun_append]
  obtain ⟨hoLat, hoLon⟩ := memRun_writes_obs post
    (memRun (memRun { cell := c0, obsLat := none, obsLon := none }
      (writeEvents pre)) snapshotEvents)
  refine ⟨?_, ?_, getLastD_mem_or pre _⟩
  · rw [hrw, hoLat, memRun_snapshot, memRun_writes_cell]
  · rw [hrw, hoLon, memRun_snapshot, memRun_writes_cell]

/-- Claim C2 marks a code bug: __init__ calls self.get_iss_position() with
no try/except (line 69), so when the startup fetch fails the exception
propagates out of the constructor instead of being logged and replaced by
the (0, 0) fallback that the except branch of initialize_marker intends;
construction aborts on each failing first fetch, shown here for a
connection failure, an HTTP 500, an undecodable body, and a body whose
longitude field is missing. -/
theorem claim2_init_propagates_first_fetch_failure :
    init 10 .netError = .error .networkError ∧
    init 10 (.response 500 none) = .error .httpStatusError ∧
    init 10 (.response 200 none) = .error .jsonDecodeError ∧
    init 10 lonMissingOutcome = .error .typeError :=
  ⟨rfl, rfl, rfl, rfl⟩

/-- Claim C3 is false.  With latitude 10 and longitude 20 stored, a fetch
whose response parses latitude 55 but lacks the longitude field raises
TypeError, yet leaves the shared position changed: latitude has already
been overwritten with 55 and only longitude keeps its previous value. -/
theorem claim3_partial_update_counterexample :
    fetchSucceeds lonMissingOutcome = false ∧
    (get_iss_position sampleState lonMissingOutcome).2 = some .typeError ∧
    (get_iss_position sampleState lonMissingOutcome).1.latitude = 55 ∧
    sampleState.latitude = 10 ∧
    ¬ (55 : Rat) = 10 ∧
    (get_iss_position sampleState lonMissingOutcome).1.longitude = 20 :=
  ⟨rfl, rfl, rfl, rfl, by norm_num, rfl⟩

/-- Claim C3 amended: a fetch that fails before the latitude assignment
(network error, error status, JSON decode error, missing or malformed
latitude) leaves the stored position entirely unchanged; but when the
latitude field parses and the longitude field then fails, the stored
latitude is overwritten with the fetched value and only the longitude
remains current. -/
theorem claim3_amended_unchanged_only_before_latitude (st : TrackerState)
    (out : FetchOutcome) :
    (failsBeforeLatitude out = true →
      (get_iss_position st out).1 = st ∧ (get_iss_position st out).2 ≠ none) ∧
    (∀ (status : Nat) (q : Rat) (lonField : JsonField) (e : FetchError),
      out = .response status (some (.num q, lonField)) →
      ¬ (400 ≤ status ∧ status < 600) →
      parseFloat lonField = .error e →
      get_iss_position st out = ({ st with latitude := q }, some e)) := by
  constructor
  · intro hf
    cases out with
    | netError => exact ⟨rfl, by simp [get_iss_position]⟩
    | response status body =>
      by_cases hs : 400 ≤ status ∧ status < 600
      · simp [get_iss_position, hs]
      · cases body with
        | none => simp [get_iss_position, hs]
        | some p =>
          obtain ⟨latField, lonField⟩ := p
          cases latField with
          | missing => simp [get_iss_position, hs, parseFloat]
          | malformed => simp [get_iss_position, hs, parseFloat]
          | num q =>
            exfalso
            simp [failsBeforeLatitude, hs, parseFloat] at hf
  · intro status q lonField e hout hs hlon
    subst hout
    cases lonField with
    | missing =>
      obtain rfl : FetchError.typeError = e := by simpa [parseFloat] using hlon
      simp [get_iss_position, hs, parseFloat]
    | malformed =>
      obtain rfl : FetchError.valueError = e := by simpa [parseFloat] using hlon
      simp [get_iss_position, hs, parseFloat]
    | num r => simp [parseFloat] at hlon

/-- Witness for the amended claim C3 at concrete inputs: a network error
leaves the state untouched, and the latitude-parses-longitude-missing
response overwrites latitude with 55 while raising TypeError. -/
theorem claim3_amended_witness :
    (get_iss_position sampleState .netError).1 = sampleState ∧
    get_iss_position sampleState lonMissingOutcome
      = ({ sampleState with latitude := 55 }, some .typeError) :=
  ⟨((claim3_amended_unchanged_only_before_latitude sampleState .netError).1 rfl).1,
    (claim3_amended_unchanged_only_before_latitude sampleState lonMissingOutcome).2
      200 55 .missing .typeError rfl (by decide) rfl⟩

/-- Claim C4 is false: in an iteration whose fetch fails, the raised
exception jumps to the except clause and skips the rest of the try block,
including sleep(self.update_interval), so no sleep happens before the
next fetch attempt.  Shown at a network error in a running state. -/
theorem claim4_no_sleep_on_failure_counterexample :
    fetchSucceeds FetchOutcome.netError = false ∧
    (update_iss_position_body sampleState .netError).slept = false ∧
    sampleState.running = true :=
  ⟨rfl, rfl, rfl⟩

/-- Claim C4 amended: the loop reaches the interval sleep exactly in the
iterations whose fetch succeeds; a failing iteration skips the sleep and
the loop re-fetches immediately (still with no backoff growth). -/
theorem claim4_amended_sleep_iff_success (st : TrackerState)
    (out : FetchOutcome) :
    (update_iss_position_body st out).slept = fetchSucceeds out :=
  (body_spec st out).2.2.1

/-- Claim C5: no fetch error terminates the polling loop.  Starting with
the running flag set, the loop executes one iteration per scheduled fetch
outcome whatever those outcomes are, the flag is still set afterwards,
with the flag cleared the loop stops before any iteration, and quit is
what clears the flag. -/
theorem claim5_loop_stops_only_by_quit (st : TrackerState)
    (outs : List FetchOutcome) (h : st.running = true) :
    (update_iss_position_thread st outs).2 = outs.length ∧
    (update_iss_position_thread st outs).1.running = true ∧
    (update_iss_position_thread { st with running := false } outs).2 = 0 ∧
    (quit st ([] : List Unit)).1.running = false := by
  have hl := loop_spec outs st h
  have hstop := loop_stopped { st with running := false } outs rfl
  exact ⟨hl.1, hl.2.1, hstop.1, quit_running_false st ([] : List Unit)⟩

/-- Witness for claim C5 on a concrete running state and a schedule of
three outcomes with one failure. -/
theorem claim5_witness :
    (update_iss_position_thread sampleState
      [okOutcome, .netError, okOutcome]).2 = 3 ∧
    (update_iss_position_thread sampleState
      [okOutcome, .netError, okOutcome]).1.running = true ∧
    (update_iss_position_thread { sampleState with running := false }
      [okOutcome, .netError, okOutcome]).2 = 0 ∧
    (quit sampleState ([] : List Unit)).1.running = false :=
  claim5_loop_stops_only_by_quit sampleState [okOutcome, .netError, okOutcome] rfl

/-- Claim C6: starting from a freshly constructed tracker (count 0) with
the loop started, the final count equals exactly the number of successful
fetches in the schedule; failed fetches never increment it and nothing
resets it. -/
theorem claim6_count_equals_successful_fetches (ui : Nat) (fo : FetchOutcome)
    (st0 : TrackerState) (outs : List FetchOutcome)
    (h : init ui fo = .ok st0) :
    (update_iss_position_thread (run st0) outs).1.count
      = List.countP fetchSucceeds outs := by
  have h0 := init_ok_state ui fo st0 h
  have hr : (run st0).running = true := rfl
  rw [(loop_spec outs (run st0) hr).2.2]
  simp [run, h0.1]

/-- Witness for claim C6: a constructed tracker run over four outcomes of
which two succeed ends with count 2. -/
theorem claim6_witness :
    (update_iss_position_thread
      (run { latitude := 7
             longitude := 8
             update_interval := 10
             running := false
             update_thread := false
             count := 0
             marker := some { lat := 7, lon := 8 }
             rootDestroyed := false })
      [okOutcome, .netError, lonMissingOutcome, okOutcome]).1.count = 2 :=
  claim6_count_equals_successful_fetches 10 okOutcome _
    [okOutcome, .netError, lonMissingOutcome, okOutcome] rfl

/-- Claim C7 is false: quit sets self.running = False and then calls
self.root.destroy(), and destroying the already-destroyed Tk application
raises TclError, so of two successive quit() calls the first returns
normally and the second raises. -/
theorem claim7_double_quit_raises_counterexample :
    (quit sampleState ([] : List Unit)).2 = none ∧
    (quit (quit sampleState ([] : List Unit)).1 ([] : List Unit)).2
      = some TclError.appDestroyed :=
  ⟨rfl, rfl⟩

/-- Claim C7 amended: with the window alive, the first quit() raises
nothing and clears the running flag, the flag is still false after the
second call, but the second call repeats root.destroy() on the destroyed
application and raises TclError, so quit is not exception-free when
called twice. -/
theorem claim7_amended_second_quit_raises (st : TrackerState)
    (h : st.rootDestroyed = false) :
    (quit st ([] : List Unit)).2 = none ∧
    (quit st ([] : List Unit)).1.running = false ∧
    (quit (quit st ([] : List Unit)).1 ([] : List Unit)).1.running = false ∧
    (quit (quit st ([] : List Unit)).1 ([] : List Unit)).2
      = some TclError.appDestroyed := by
  refine ⟨?_, quit_running_false st ([] : List Unit),
    quit_running_false _ ([] : List Unit), ?_⟩
  · simp [quit, destroyRoot, h]
  · simp [quit, destroyRoot, h]

/-- Witness for the amended claim C7 at a concrete live-window state. -/
theorem claim7_amended_witness :
    (quit sampleState ([] : List Unit)).2 = none ∧
    (quit sampleState ([] : List Unit)).1.running = false ∧
    (quit (quit sampleState ([] : List Unit)).1 ([] : List Unit)).1.running = false ∧
    (quit (quit sampleState ([] : List Unit)).1 ([] : List Unit)).2
      = some TclError.appDestroyed :=
  claim7_amended_second_quit_raises sampleState rfl

/-- Claim C8 is false: on a successful fetch the worker thread configures
the count, latitude and longitude labels directly (lines 126-130); only
the update_marker_position callback crosses to the UI thread through
root.after. -/
theorem claim8_direct_label_calls_counterexample :
    fetchSucceeds okOutcome = true ∧
    (update_iss_position_body sampleState okOutcome).workerDirectUiCalls
      = [ .configureCountLabel 6
        , .configureLatitudeLabel 7
        , .configureLongitudeLabel 8 ] ∧
    ([ UiCall.configureCountLabel 6
     , UiCall.configureLatitudeLabel 7
     , UiCall.configureLongitudeLabel 8 ] : List UiCall) ≠ [] :=
  ⟨rfl, rfl, by simp⟩

/-- Claim C8 amended: on every successful fetch the marker and map update
is delivered by enqueueing update_marker_position into the UI thread's
event queue via root.after(0, ...), but the three status labels are
configured directly from the worker thread. -/
theorem claim8_amended_labels_direct_marker_queued (st : TrackerState)
    (out : FetchOutcome) (h : fetchSucceeds out = true) :
    (update_iss_position_body st out).workerDirectUiCalls
      = [ .configureCountLabel (st.count + 1)
        , .configureLatitudeLabel (update_iss_position_body st out).state.latitude
        , .configureLongitudeLabel (update_iss_position_body st out).state.longitude ] ∧
    (update_iss_position_body st out).queuedToUiThread
      = [UiCall.afterUpdateMarkerPosition] :=
  (body_spec st out).2.2.2.2 h

/-- Witness for the amended claim C8 at a concrete successful fetch. -/
theorem claim8_amended_witness :
    (update_iss_position_body sampleState okOutcome).workerDirectUiCalls
      = [ .configureCountLabel (sampleState.count + 1)
        , .configureLatitudeLabel
            (update_iss_position_body sampleState okOutcome).state.latitude
        , .configureLongitudeLabel
            (update_iss_position_body sampleState okOutcome).state.longitude ] ∧
    (update_iss_position_body sampleState okOutcome).queuedToUiThread
      = [UiCall.afterUpdateMarkerPosition] :=
  claim8_amended_labels_direct_marker_queued sampleState okOutcome rfl

/-- Claim C9: quit is declared def quit(self, *arts), so it accepts any
number of extra positional arguments, ignores them all, and clears the
running flag either way; the same method therefore serves as the
WM_DELETE_WINDOW protocol callback (called with no argument) and as the
Escape key binding handler (called with an event argument). -/
theorem claim9_quit_accepts_any_arguments {α : Type} (st : TrackerState)
    (arts : List α) :
    quit st arts = quit st ([] : List Unit) ∧
    (quit st arts).1.running = false :=
  ⟨rfl, quit_running_false st arts⟩

/-- Claim C10: a successful fetch returns without raising and modifies
only the stored latitude and longitude; count, running, update_interval,
marker, update_thread and the window state are untouched. -/
theorem claim10_fetch_touches_only_position (st : TrackerState)
    (out : FetchOutcome) (h : fetchSucceeds out = true) :
    (get_iss_position st out).2 = none ∧
    (get_iss_position st out).1.count = st.count ∧
    (get_iss_position st out).1.running = st.running ∧
    (get_iss_position st out).1.update_interval = st.update_interval ∧
    (get_iss_position st out).1.marker = st.marker ∧
    (get_iss_position st out).1.update_thread = st.update_thread ∧
    (get_iss_position st out).1.rootDestroyed = st.rootDestroyed :=
  ⟨(get_pos_err_iff st out).mpr h, get_pos_frame st out⟩

/-- Witness for claim C10 at a concrete state and successful outcome. -/
theorem claim10_witness :
    (get_iss_position sampleState okOutcome).2 = none ∧
    (get_iss_position sampleState okOutcome).1.count = sampleState.count ∧
    (get_iss_position sampleState okOutcome).1.running = sampleState.running ∧
    (get_iss_position sampleState okOutcome).1.update_interval
      = sampleState.update_interval ∧
    (get_iss_position sampleState okOutcome).1.marker = sampleState.marker ∧
    (get_iss_position sampleState okOutcome).1.update_thread
      = sampleState.update_thread ∧
    (get_iss_position sampleState okOutcome).1.rootDestroyed
      = sampleState.rootDestroyed :=
  claim10_fetch_touches_only_position sampleState okOutcome rfl

end ISSTracker
